import Mathlib

/-!
Verification development for the DTIQCGui repository
(`src/DTIQCGui/src/dti_qc_gui.pyw`).

The repository's algorithmic core is embedded shallowly:
samples are rationals (`ℚ`), Python's `int(...)` is truncation toward
zero, and numpy's cast to `uint8` is truncation followed by a wrap
modulo 256 (numpy does not clamp on cast; the source itself works
around this in the robust branch by clamping beforehand).
-/

namespace DTIQC

/-- Python `int(x)`: truncation toward zero. -/
def pyTrunc (x : ℚ) : ℤ := if 0 ≤ x then ⌊x⌋ else -⌊-x⌋

/-- numpy's cast of a float to `uint8`: truncate toward zero, then wrap
modulo 256 (no clamping). -/
def wrap8 (z : ℤ) : ℕ := (z % 256).toNat

/-- `cast_uint8(data, normConst)` from `rescaleImageData`
(dti_qc_gui.pyw:72-73): `uint8(255.*data/normConst)`, elementwise. -/
def cast_uint8 (normConst x : ℚ) : ℕ := wrap8 (pyTrunc (255 * x / normConst))

/-- The `fastest` branch of `rescaleImageData` (dti_qc_gui.pyw:74-78):
every sample is passed to `cast_uint8` with the constant `maxValue = 4095`. -/
def rescaleFast (x : ℚ) : ℕ := cast_uint8 4095 x

/-- Insert into an ascending list (helper for sorting). -/
def insertAsc (a : ℚ) : List ℚ → List ℚ
  | [] => [a]
  | b :: t => if a ≤ b then a :: b :: t else b :: insertAsc a t

/-- Ascending insertion sort, the order numpy uses for percentiles. -/
def sortAsc (l : List ℚ) : List ℚ := l.foldr insertAsc []

/-- `numpy.percentile(data, q)` with the default linear interpolation:
on the ascending sort `s` of the data, with `h = (n-1)*q/100`,
returns `s[⌊h⌋] + (h - ⌊h⌋) * (s[⌊h⌋+1] - s[⌊h⌋])`
(the upper index falling back to the lower at the end).
`rescaleImageData` calls this as its default `quantileFunc`. -/
def percentileLinear (l : List ℚ) (q : ℚ) : ℚ :=
  let s := sortAsc l
  if s.length = 0 then 0
  else
    let h : ℚ := ((s.length : ℚ) - 1) * q / 100
    let i : ℕ := (⌊h⌋).toNat
    let lo := s.getD i 0
    let hi := s.getD (i + 1) lo
    lo + (h - (⌊h⌋ : ℚ)) * (hi - lo)

/-- `cdata.flat[flatnonzero(cdata.flatten() >= maxValue)] = maxValue`
(dti_qc_gui.pyw:91): every sample `>= maxValue` is set to `maxValue`. -/
def clampAbove (m : ℚ) (ch : List ℚ) : List ℚ :=
  ch.map fun x => if m ≤ x then m else x

/-- `cdata.flatten().max()` (dti_qc_gui.pyw:95). -/
def listMax : List ℚ → ℚ
  | [] => 0
  | [a] => a
  | a :: b :: t => max a (listMax (b :: t))

/-- One channel of the robust-percentile branch of `rescaleImageData`
(dti_qc_gui.pyw:85-96): `maxValue` is the percentile of the flattened
channel, samples `>= maxValue` are clamped to `maxValue`, then the
channel is cast with `cast_uint8 maxValue`. -/
def rescaleChannelRobust (q : ℚ) (ch : List ℚ) : List ℕ :=
  let maxValue := percentileLinear ch q
  (clampAbove maxValue ch).map (cast_uint8 maxValue)

/-- One channel of the direction-maximum branch of `rescaleImageData`
(dti_qc_gui.pyw:93-96): `maxValue` is the channel's true maximum, no
clamping, then `cast_uint8 maxValue`. -/
def rescaleChannelMax (ch : List ℚ) : List ℕ :=
  let maxValue := listMax ch
  ch.map (cast_uint8 maxValue)

/-- Observable events of the per-channel loop of `rescaleImageData`:
a progress emission `signal.emit(dir_no + 1)` and the completion of
one channel's processing. -/
inductive RescaleEvent where
  | emitProgress (n : ℕ)
  | channelProcessed (n : ℕ)
deriving DecidableEq, Repr

/-- The per-channel loop of `rescaleImageData` (dti_qc_gui.pyw:80-97),
instrumented with its observable event trace.  Each iteration first
emits `dir_no + 1` when a signal was passed (dti_qc_gui.pyw:83-84), then
processes channel `dir_no` (robust-percentile when `useQuantileFunc`,
direction-maximum otherwise).  `dirNo` is the 0-based index of the head
channel. -/
def rescaleLoop (useQuantileFunc : Bool) (q : ℚ) (hasSignal : Bool) :
    List (List ℚ) → ℕ → List (List ℕ) × List RescaleEvent
  | [], _ => ([], [])
  | ch :: rest, dirNo =>
    let ev := if hasSignal then [RescaleEvent.emitProgress (dirNo + 1)] else []
    let out := if useQuantileFunc then rescaleChannelRobust q ch else rescaleChannelMax ch
    let r := rescaleLoop useQuantileFunc q hasSignal rest (dirNo + 1)
    (out :: r.1, ev ++ RescaleEvent.channelProcessed (dirNo + 1) :: r.2)

/-- The display-size choice of `numpy2grayscaleqimage` (dti_qc_gui.pyw:149-158):
`verticalSize = res[1]*data.shape[1]`, `horizontalSize = res[0]*data.shape[0]`;
if vertical is at least horizontal the width is shrunk to
`int(horizontalSize/verticalSize*previewsize.height())` with the height kept,
otherwise the height is shrunk symmetrically with the width kept. -/
def rescaleSize (res0 res1 : ℚ) (d0 d1 : ℕ) (pw ph : ℤ) : ℤ × ℤ :=
  let verticalSize := res1 * d1
  let horizontalSize := res0 * d0
  if horizontalSize ≤ verticalSize then
    (pyTrunc (horizontalSize / verticalSize * ph), ph)
  else
    (pw, pyTrunc (verticalSize / horizontalSize * pw))

/-- A grayscale image: width, height, and a pixel lookup. -/
structure QImg where
  width : ℕ
  height : ℕ
  pix : ℕ → ℕ → ℕ

/-- Modelled from the spec: the external Qt renderer's `QImage.scaled`
(an external collaborator; the spec treats the rendering adapter as
external), as nearest-sample spatial rescaling to the requested size. -/
def qimgScaled (W H : ℕ) (img : QImg) : QImg :=
  ⟨W, H, fun a b => img.pix (a * img.width / W) (b * img.height / H)⟩

/-- `QImage.transformed(rot90)` for a 90 degree clockwise Qt rotation
(y-down coordinates): display pixel `(a, b)` of the rotated image is
source pixel `(b, height - 1 - a)`. -/
def qimgRot90 (img : QImg) : QImg :=
  ⟨img.height, img.width, fun a b => img.pix b (img.height - 1 - a)⟩

/-- `QImage.mirrored(horizontal, vertical)`. -/
def qimgMirror (hor ver : Bool) (img : QImg) : QImg :=
  ⟨img.width, img.height, fun a b =>
    img.pix (if hor then img.width - 1 - a else a)
            (if ver then img.height - 1 - b else b)⟩

/-- `numpy2grayscaleqimage` (dti_qc_gui.pyw:129-167): build the slice
image, rescale it spatially to `rescaleSize`, then (when `rotate`)
apply the 90 degree rotation and finally the mirror. -/
def numpy2grayscaleqimage (img : QImg) (res0 res1 : ℚ) (pw ph : ℤ)
    (hflip vflip rotate : Bool) : QImg :=
  let sz := rescaleSize res0 res1 img.width img.height pw ph
  let scaled := qimgScaled sz.1.toNat sz.2.toNat img
  if rotate then qimgMirror hflip vflip (qimgRot90 scaled)
  else qimgMirror hflip vflip scaled

/-- Modelled from the spec: the external renderer draws voxel `(i, j)` of a
`w0 x h0` slice scaled to a `W x H` pixmap as the pixel block
`[i*W/w0, (i+1)*W/w0) x [j*H/h0, (j+1)*H/h0)`; this is the block's center,
a click position that lies inside the drawn pixmap bounds. -/
def renderedCenter (i j w0 h0 : ℕ) (W H : ℤ) : ℚ × ℚ :=
  (((i : ℚ) + 1 / 2) * W / w0, ((j : ℚ) + 1 / 2) * H / h0)

/-- The `slaxis == 'z'` branch of `__preview_clicked`
(dti_qc_gui.pyw:501-513).  The xy preview shows `image_data[:, :, z, dir]`
(horizontal axis: volume x with `nx` voxels; vertical axis: volume y with
`ny` voxels), yet the source computes
`x_val = int(position.x()/pmX*nifti_shape[1])` and
`y_val = int(position.y()/pmY*nifti_shape[0])`, i.e. it scales the
horizontal click by `DIMS[1] = ny` and the vertical click by
`DIMS[0] = nx` (`DIMS` is the volume shape `(nx, ny, nz, ...)`, the
reading forced by its use in the other two branches).  `xmax = nx - 1`
and `ymax = ny - 1` are the slider maxima. -/
def previewClickedZ (px py pmX pmY : ℚ) (nx ny : ℕ) (hflip vflip : Bool)
    (xmax ymax : ℤ) : ℤ × ℤ :=
  let x0 := pyTrunc (px / pmX * ny)
  let y0 := pyTrunc (py / pmY * nx)
  let y1 := if vflip then ymax - y0 else y0
  let x1 := if hflip then xmax - x0 else x0
  (x1, y1)

/-- The `slaxis == 'x'` branch of `__preview_clicked`
(dti_qc_gui.pyw:514-530): the yz preview shows
`image_data[x, :, :, dir]` (`ny` by `nz` voxels).  With rotation the
vertical click drives the y index and the horizontal click drives a
reversed z index; without rotation the horizontal click drives y and the
vertical click drives z; the mirror checkboxes then invert the resulting
indices.  Returns `(y_val, z_val)`. -/
def previewClickedX (px py pmX pmY left top : ℚ) (ny nz : ℕ)
    (rotate hflip vflip : Bool) (ymax zmax : ℤ) : ℤ × ℤ :=
  let y0 := if rotate then pyTrunc (py / pmY * ny) else pyTrunc (px / pmX * ny)
  let z0 := if rotate then zmax - pyTrunc ((px - left) / pmX * nz)
            else pyTrunc ((py - top) / pmY * nz)
  let z1 := if vflip then zmax - z0 else z0
  let y1 := if hflip then ymax - y0 else y0
  (y1, z1)

/-- The `slaxis == 'y'` branch of `__preview_clicked`
(dti_qc_gui.pyw:531-548): the zx preview shows
`image_data[:, y, :, dir]` (`nx` by `nz` voxels).  The base indices and
the mirror inversions are computed exactly as in the non-rotated case,
and when rotation is enabled the two resulting indices are swapped at
the end (`tmp = x_val; x_val = z_val; z_val = tmp`).
Returns `(z_val, x_val)`. -/
def previewClickedY (px py pmX pmY top : ℚ) (nx nz : ℕ)
    (rotate hflip vflip : Bool) (xmax zmax : ℤ) : ℤ × ℤ :=
  let z0 := pyTrunc ((py - top) / pmY * nz)
  let x0 := pyTrunc (px / pmX * nx)
  let z1 := if vflip then zmax - z0 else z0
  let x1 := if hflip then xmax - x0 else x0
  if rotate then (x1, z1) else (z1, x1)

/-- A Python value that `set(eval(txt))` can put in the evaluated set:
an integer, or something that is not an `int`. -/
inductive PyVal where
  | intVal (n : ℤ)
  | nonIntVal
deriving DecidableEq

/-- Outcome of `set(eval(txt))` in `__validate_text_excluded`
(dti_qc_gui.pyw:372-381).  Only `SyntaxError` (e.g. the text
"not a list") and `NameError` have handlers; any other exception (e.g.
the `TypeError` raised by `set(3)` for the text "3", or a `SystemExit`
produced by evaluating "exit()") escapes the try block uncaught. -/
inductive EvalOutcome where
  | malformed
  | unknownName
  | otherExc
  | ok (vals : List PyVal)
deriving DecidableEq

/-- What a call of `__validate_text_excluded` does: the exclusion set it
leaves behind, whether the "Editing Error" dialog was shown, and whether
an exception escaped the handler uncaught. -/
structure ValidateResult where
  excluded : Finset ℤ
  errorReported : Bool
  uncaughtExc : Bool
deriving DecidableEq

/-- `__validate_text_excluded` (dti_qc_gui.pyw:367-393), for a loaded
dataset with `lastdir = getSignalLength() - 1` and prior exclusion set
`prior`.  `SyntaxError`/`NameError` report the error and keep the prior
set; other exceptions escape uncaught (set also unchanged); a
successfully evaluated set with any non-`int` member reports the error
and keeps the prior set; otherwise `rem` collects members outside
`[0, lastdir]` and the new set is `exc.difference(rem)`. -/
def validate_text_excluded (lastdir : ℤ) (prior : Finset ℤ) :
    EvalOutcome → ValidateResult
  | .malformed => ⟨prior, true, false⟩
  | .unknownName => ⟨prior, true, false⟩
  | .otherExc => ⟨prior, false, true⟩
  | .ok vals =>
    if vals.any (fun v => match v with | .nonIntVal => true | .intVal _ => false) then
      ⟨prior, true, false⟩
    else
      let exc := (vals.filterMap
        (fun v => match v with | .intVal n => some n | .nonIntVal => none)).toFinset
      let rem := exc.filter (fun i => i < 0 ∨ lastdir < i)
      ⟨exc \ rem, false, false⟩

/-- Session state touched by `save_data`: the loaded dataset (carrying
its `EXCLUDED_DIRS`) and the rescaled image data. -/
structure Session where
  dti_obj : Option (Finset ℤ)
  image_data : Option (List (List ℕ))
deriving DecidableEq

/-- Outcome of the external `dti_obj.saveData()` call: the saved file
names, or an I/O failure (raised exception). -/
inductive SaveOutcome where
  | success (files : List String)
  | ioFailure
deriving DecidableEq

/-- Observable result of `save_data`: nothing at all, the "SAVE OK"
dialog listing the saved files, the "SAVE ERROR" dialog naming a
directory, or an uncaught `AttributeError`. -/
inductive SaveResult where
  | noSave
  | infoShown (files : List String)
  | errorShown (dirName : String)
  | uncaughtAttrError
deriving DecidableEq

/-- `save_data` (dti_qc_gui.pyw:682-696): a no-op unless a dataset is
loaded and `EXCLUDED_DIRS` is non-empty; on success the "SAVE OK" dialog
lists the saved files; when `saveData()` raises, the handler builds the
"SAVE ERROR" text from `self.parameter_box.dataset.dti_nifti_name`, but
`DtiQAGui` has no attribute `parameter_box` (its single occurrence in
the file is this read), so evaluating the dialog's argument raises
`AttributeError` and no dialog is shown.  The session state is never
mutated. -/
def save_data (s : Session) (outcome : SaveOutcome) : Session × SaveResult :=
  match s.dti_obj with
  | none => (s, .noSave)
  | some exc =>
    if exc = ∅ then (s, .noSave)
    else
      match outcome with
      | .success files => (s, .infoShown files)
      | .ioFailure => (s, .uncaughtAttrError)

/-! ## General lemmas about the embedded primitives -/

theorem wrap8_le (z : ℤ) : wrap8 z ≤ 255 := by
  unfold wrap8
  have h1 : z % 256 < 256 := Int.emod_lt_of_pos z (by norm_num)
  have h2 : 0 ≤ z % 256 := Int.emod_nonneg z (by norm_num)
  omega

theorem pyTrunc_eq_floor {x : ℚ} (h : 0 ≤ x) : pyTrunc x = ⌊x⌋ := by
  unfold pyTrunc
  rw [if_pos h]

/-- Scaling the norm constant itself yields exactly 255 whenever the
constant is nonzero: `uint8(255*m/m) = uint8(255) = 255`. -/
theorem cast_uint8_self {m : ℚ} (hm : m ≠ 0) : cast_uint8 m m = 255 := by
  unfold cast_uint8
  rw [mul_div_assoc, div_self hm, mul_one]
  rw [pyTrunc_eq_floor (by norm_num)]
  norm_num [wrap8]
  decide

/-- The robust branch maps each sample through clamp-then-cast pointwise. -/
theorem rescaleChannelRobust_eq_map (q : ℚ) (ch : List ℚ) :
    rescaleChannelRobust q ch = ch.map (fun x =>
      cast_uint8 (percentileLinear ch q)
        (if percentileLinear ch q ≤ x then percentileLinear ch q else x)) := by
  unfold rescaleChannelRobust clampAbove
  rw [List.map_map]
  rfl

theorem listMax_eq_zero {ch : List ℚ} (h : ∀ x ∈ ch, x = 0) : listMax ch = 0 := by
  induction ch with
  | nil => rfl
  | cons a t ih =>
    cases t with
    | nil => simpa using h a (by simp)
    | cons b t2 =>
      rw [listMax, h a (by simp), ih fun x hx => h x (by simp [hx])]
      simp

/-! ## C1: robust-percentile rescaling -/

/-- C1 (counterexample): the claim "for every channel with at least one
strictly positive sample ... a sample equal to the percentile cutoff maps
to 255" is false.  The channel `[0, 0, 1]` at the given percentile 50 has
the strictly positive sample `1`, its percentile cutoff is `0`, the
sample at index 0 equals that cutoff, and yet every output sample —
including that one — is `0`, not `255` (the cutoff being zero, the
clamp sends the whole channel to zero and `255*0/0` casts to `0`). -/
theorem robust_rescale_cutoff_zero_counterexample :
    (0 : ℚ) < 1 ∧ (1 : ℚ) ∈ [(0 : ℚ), 0, 1] ∧
    percentileLinear [(0 : ℚ), 0, 1] 50 = 0 ∧
    ([(0 : ℚ), 0, 1]).getD 0 0 = percentileLinear [(0 : ℚ), 0, 1] 50 ∧
    rescaleChannelRobust 50 [(0 : ℚ), 0, 1] = [0, 0, 0] ∧
    (rescaleChannelRobust 50 [(0 : ℚ), 0, 1]).getD 0 0 ≠ 255 := by
  have hp : percentileLinear [(0 : ℚ), 0, 1] 50 = 0 := by
    norm_num [percentileLinear, sortAsc, insertAsc]
  have hr : rescaleChannelRobust 50 [(0 : ℚ), 0, 1] = [0, 0, 0] := by
    norm_num [rescaleChannelRobust, percentileLinear, sortAsc, insertAsc,
      clampAbove, cast_uint8, pyTrunc, wrap8]
  refine ⟨by norm_num, by norm_num, hp, by rw [hp]; rfl, hr, by rw [hr]; norm_num⟩

/-- C1 (amended): in robust-percentile mode, for every channel whose
percentile cutoff `maxValue` is nonzero, every output sample lies in
[0, 255], and every sample that is at least the cutoff — in particular a
sample equal to it — maps to exactly 255. -/
theorem robust_rescale_bounded_and_cutoff_to_255 (q : ℚ) (ch : List ℚ)
    (hm : percentileLinear ch q ≠ 0) :
    (∀ y ∈ rescaleChannelRobust q ch, y ≤ 255) ∧
    (∀ i, i < ch.length → percentileLinear ch q ≤ ch.getD i 0 →
      (rescaleChannelRobust q ch).getD i 0 = 255) := by
  constructor
  · intro y hy
    rw [rescaleChannelRobust_eq_map] at hy
    obtain ⟨x, _, rfl⟩ := List.mem_map.mp hy
    exact wrap8_le _
  · intro i hi hle
    have ha := List.getElem?_eq_getElem (l := ch) (n := i) hi
    have hle2 : percentileLinear ch q ≤ ch[i] := by
      rw [List.getD_eq_getElem?_getD, ha] at hle
      simpa using hle
    rw [rescaleChannelRobust_eq_map, List.getD_eq_getElem?_getD,
      List.getElem?_map, ha]
    simp only [Option.map_some', Option.getD_some]
    rw [if_pos hle2]
    exact cast_uint8_self hm

/-- C1 (witness): on the channel `[0, 2, 4]` at percentile 50 the cutoff
is `2` (nonzero), and the sample `4` at index 2, being at least the
cutoff, maps to 255. -/
theorem robust_rescale_bounded_and_cutoff_to_255_witness :
    percentileLinear [(0 : ℚ), 2, 4] 50 ≠ 0 ∧
    (2 : ℕ) < ([(0 : ℚ), 2, 4]).length ∧
    percentileLinear [(0 : ℚ), 2, 4] 50 ≤ ([(0 : ℚ), 2, 4]).getD 2 0 ∧
    (rescaleChannelRobust 50 [(0 : ℚ), 2, 4]).getD 2 0 = 255 := by
  have hp : percentileLinear [(0 : ℚ), 2, 4] 50 = 2 := by
    norm_num [percentileLinear, sortAsc, insertAsc]
  refine ⟨by rw [hp]; norm_num, by norm_num, by rw [hp]; norm_num, ?_⟩
  exact (robust_rescale_bounded_and_cutoff_to_255 50 [(0 : ℚ), 2, 4]
    (by rw [hp]; norm_num)).2 2 (by norm_num) (by rw [hp]; norm_num)

/-! ## C3: fixed-depth (fastest) rescaling -/

/-- C3 (counterexample): the claim "values outside [0,4095] are clamped
before the cast so that for every input sample above 4095 the output is
255" is false: the fastest branch does not clamp, so the sample `8190`
scales to `255*8190/4095 = 510`, which the `uint8` cast wraps to `254`,
not 255. -/
theorem fixed_depth_wrap_counterexample :
    (4095 : ℚ) < 8190 ∧ rescaleFast 8190 = 254 ∧ (254 : ℕ) ≠ 255 := by
  refine ⟨by norm_num, ?_, by norm_num⟩
  norm_num [rescaleFast, cast_uint8, pyTrunc, wrap8]
  decide

/-- C3 (amended): in fixed-depth mode every sample is scaled by
`255/4095` and truncated; there is no clamping, so only for samples
already inside [0, 4095] is the result the plain truncation, in [0, 255]
with no wrap (samples above 4095 can wrap, see the counterexample). -/
theorem fixed_depth_in_range_no_wrap (x : ℚ) (h0 : 0 ≤ x) (h1 : x ≤ 4095) :
    rescaleFast x = (⌊255 * x / 4095⌋).toNat ∧ rescaleFast x ≤ 255 := by
  have hnn : 0 ≤ 255 * x / 4095 := by positivity
  have hle : 255 * x / 4095 ≤ 255 := by
    rw [div_le_iff₀ (by norm_num : (0 : ℚ) < 4095)]
    nlinarith
  have hfl0 : 0 ≤ ⌊255 * x / 4095⌋ := Int.floor_nonneg.mpr hnn
  have hfl255 : ⌊255 * x / 4095⌋ ≤ 255 := by
    have h := Int.floor_le_floor hle
    rw [show ⌊(255 : ℚ)⌋ = 255 by norm_num] at h
    exact h
  have heq : rescaleFast x = (⌊255 * x / 4095⌋).toNat := by
    unfold rescaleFast cast_uint8 wrap8
    rw [pyTrunc_eq_floor hnn, Int.emod_eq_of_lt hfl0 (by omega)]
  exact ⟨heq, by rw [heq]; omega⟩

/-- C3 (witness): the in-range sample 4095 itself maps to at most 255
(in fact to exactly 255). -/
theorem fixed_depth_in_range_no_wrap_witness :
    (0 : ℚ) ≤ 4095 ∧ (4095 : ℚ) ≤ 4095 ∧ rescaleFast 4095 ≤ 255 :=
  ⟨by norm_num, by norm_num,
    (fixed_depth_in_range_no_wrap 4095 (by norm_num) (by norm_num)).2⟩

/-! ## C7: channel-max rescaling of an all-zero channel -/

/-- C7: a channel whose samples are all zero has channel maximum 0, and
the channel-max rescale maps it to the all-zero output channel — the
total embedding returns a value (no exception), and the zero-maximum
division produces the sample 0, not a poisoned value. -/
theorem channel_max_all_zero (ch : List ℚ) (h : ∀ x ∈ ch, x = 0) :
    rescaleChannelMax ch = List.replicate ch.length 0 := by
  unfold rescaleChannelMax
  rw [listMax_eq_zero h]
  have hlen : (ch.map (cast_uint8 0)).length = ch.length := by simp
  rw [← hlen, List.eq_replicate_length]
  intro b hb
  obtain ⟨x, hx, rfl⟩ := List.mem_map.mp hb
  rw [h x hx]
  norm_num [cast_uint8, pyTrunc, wrap8]

/-- C7 (witness): the all-zero channel `[0, 0]` rescales to `[0, 0]`. -/
theorem channel_max_all_zero_witness :
    (∀ x ∈ [(0 : ℚ), 0], x = 0) ∧
    rescaleChannelMax [(0 : ℚ), 0] = List.replicate 2 0 :=
  ⟨by simp, channel_max_all_zero [(0 : ℚ), 0] (by simp)⟩

/-! ## C5: aspect-preserving display-size choice -/

/-- C5: for positive in-plane spacings and positive slice dimensions,
with `vertical = res1*d1` and `horizontal = res0*d0`: when
`vertical >= horizontal` the display width becomes
`previewBox.height * horizontal/vertical` (truncated to an integer pixel
count) with the height fixed at `previewBox.height`; otherwise the width
is fixed at `previewBox.width` and the height becomes
`previewBox.width * vertical/horizontal` (truncated). -/
theorem aspect_preserving_rescale_size (res0 res1 : ℚ) (d0 d1 : ℕ) (pw ph : ℤ)
    (hres0 : 0 < res0) (hres1 : 0 < res1) (hd0 : 0 < d0) (hd1 : 0 < d1)
    (hpw : 0 ≤ pw) (hph : 0 ≤ ph) :
    (res0 * (d0 : ℚ) ≤ res1 * (d1 : ℚ) →
      rescaleSize res0 res1 d0 d1 pw ph
        = (⌊(ph : ℚ) * (res0 * (d0 : ℚ)) / (res1 * (d1 : ℚ))⌋, ph)) ∧
    (res1 * (d1 : ℚ) < res0 * (d0 : ℚ) →
      rescaleSize res0 res1 d0 d1 pw ph
        = (pw, ⌊(pw : ℚ) * (res1 * (d1 : ℚ)) / (res0 * (d0 : ℚ))⌋)) := by
  have hh : (0 : ℚ) ≤ res0 * (d0 : ℚ) :=
    le_of_lt (mul_pos hres0 (by exact_mod_cast hd0))
  have hv : (0 : ℚ) ≤ res1 * (d1 : ℚ) :=
    le_of_lt (mul_pos hres1 (by exact_mod_cast hd1))
  constructor
  · intro hle
    unfold rescaleSize
    rw [if_pos hle]
    have harg : (0 : ℚ) ≤ res0 * (d0 : ℚ) / (res1 * (d1 : ℚ)) * (ph : ℚ) :=
      mul_nonneg (div_nonneg hh hv) (by exact_mod_cast hph)
    rw [pyTrunc_eq_floor harg]
    congr 1
    rw [div_mul_eq_mul_div, mul_comm]
  · intro hlt
    unfold rescaleSize
    rw [if_neg (not_le.mpr hlt)]
    have harg : (0 : ℚ) ≤ res1 * (d1 : ℚ) / (res0 * (d0 : ℚ)) * (pw : ℚ) :=
      mul_nonneg (div_nonneg hv hh) (by exact_mod_cast hpw)
    rw [pyTrunc_eq_floor harg]
    congr 1
    rw [div_mul_eq_mul_div, mul_comm]

/-- C5 (witness): a 4x8 slice with unit spacings in a 256x256 preview
box has vertical extent 8 at least horizontal extent 4, so the width
shrinks to 128 and the height stays 256. -/
theorem aspect_preserving_rescale_size_witness :
    rescaleSize 1 1 4 8 256 256 = (128, 256) := by
  have h := (aspect_preserving_rescale_size 1 1 4 8 256 256
    (by norm_num) (by norm_num) (by norm_num) (by norm_num)
    (by norm_num) (by norm_num)).1 (by norm_num)
  rw [h]
  norm_num

/-! ## C2: forward-then-inverse round trip of the locator -/

/-- C2 (code bug, evaluated at the failing input): for the xy preview
(slicing axis z) of a 4x8 slice with unit spacings in a 256x256 preview
box with the identity transform, the renderer draws voxel `(3, 0)` at
the 128x256 pixmap's pixel block centered on `(112, 16)`; clicking
exactly there, `__preview_clicked` recovers `(7, 0)` — the horizontal
click is scaled by `DIMS[1] = 8` instead of the slice's horizontal voxel
count 4 — so the recovered x index differs from the original by 4,
beyond the claimed +-1 tolerance. -/
theorem xy_preview_roundtrip_broken :
    rescaleSize 1 1 4 8 256 256 = (128, 256) ∧
    renderedCenter 3 0 4 8 128 256 = (112, 16) ∧
    previewClickedZ 112 16 128 256 4 8 false false 3 7 = (7, 0) ∧
    (1 : ℤ) < 7 - 3 := by
  refine ⟨?_, ?_, ?_, by norm_num⟩
  · norm_num [rescaleSize, pyTrunc]
  · norm_num [renderedCenter]
  · norm_num [previewClickedZ, pyTrunc]

/-! ## C4: rotation and the click inverse -/

/-- C4 (counterexample): the claim that the rotated inverse of a screen
point differs from the non-rotated inverse of the same point exactly by
the row/column role swap fails for the yz preview (slicing axis x): on a
4x6 slice (ny = 4, nz = 6) with no mirrors, at screen point `(0, 0)` the
non-rotated inverse is `(y, z) = (0, 0)` — whose role swap is still
`(0, 0)` — while the rotated inverse is `(0, 5)`: the rotated branch
also reverses the recovered z index (`zmax - ...`). -/
theorem yz_rotated_inverse_not_pure_swap :
    previewClickedX 0 0 170 256 0 0 4 6 true false false 3 5 = (0, 5) ∧
    previewClickedX 0 0 170 256 0 0 4 6 false false false 3 5 = (0, 0) ∧
    ((0 : ℤ), (5 : ℤ)) ≠ Prod.swap ((0 : ℤ), (0 : ℤ)) := by
  refine ⟨?_, ?_, by simp [Prod.swap]⟩
  · norm_num [previewClickedX, pyTrunc]
  · norm_num [previewClickedX, pyTrunc]

/-- C4 (amended): the forward transform applies the 90-degree rotation
before mirroring (the mirror is the outermost operation); the zx
preview's rotated inverse equals exactly the row/column swap of its
non-rotated inverse at every screen point and for every mirror setting;
and the yz preview's rotated inverse equals its non-rotated inverse with
the two screen coordinates' roles exchanged composed with a reversal of
the recovered z index (`z` goes to `zmax - z`), i.e. not the pure swap. -/
theorem rotated_inverse_characterization :
    (∀ (img : QImg) (res0 res1 : ℚ) (pw ph : ℤ) (hf vf : Bool),
      numpy2grayscaleqimage img res0 res1 pw ph hf vf true
        = qimgMirror hf vf (qimgRot90 (qimgScaled
            (rescaleSize res0 res1 img.width img.height pw ph).1.toNat
            (rescaleSize res0 res1 img.width img.height pw ph).2.toNat img))) ∧
    (∀ (px py pmX pmY top : ℚ) (nx nz : ℕ) (hf vf : Bool) (xmax zmax : ℤ),
      previewClickedY px py pmX pmY top nx nz true hf vf xmax zmax
        = Prod.swap (previewClickedY px py pmX pmY top nx nz false hf vf xmax zmax)) ∧
    (∀ (px py pmX pmY left top : ℚ) (ny nz : ℕ) (hf vf : Bool) (ymax zmax : ℤ),
      previewClickedX px py pmX pmY left top ny nz true hf vf ymax zmax
        = ((previewClickedX py px pmY pmX top left ny nz false hf vf ymax zmax).1,
           zmax - (previewClickedX py px pmY pmX top left ny nz false hf vf ymax zmax).2)) := by
  refine ⟨fun img res0 res1 pw ph hf vf => rfl,
          fun px py pmX pmY top nx nz hf vf xmax zmax => rfl,
          fun px py pmX pmY left top ny nz hf vf ymax zmax => ?_⟩
  cases vf <;> rfl

/-! ## C6: progress reporting of the per-channel loop -/

/-- C6 (counterexample): on a one-channel volume with a progress sink,
the loop's event trace is emission first, channel completion second —
`signal.emit(dir_no + 1)` runs at the top of the iteration — so the
claim that the sink is invoked after that channel's processing completes
(i.e. at a strictly later trace position) is false. -/
theorem progress_emitted_before_channel_counterexample :
    (rescaleLoop true (199 / 2) true [[1]] 0).2
      = [RescaleEvent.emitProgress 1, RescaleEvent.channelProcessed 1] ∧
    ¬ (∀ p r : ℕ,
        (rescaleLoop true (199 / 2) true [[1]] 0).2.get? p
          = some (RescaleEvent.emitProgress 1) →
        (rescaleLoop true (199 / 2) true [[1]] 0).2.get? r
          = some (RescaleEvent.channelProcessed 1) →
        r < p) := by
  have htr : (rescaleLoop true (199 / 2) true [[1]] 0).2
      = [RescaleEvent.emitProgress 1, RescaleEvent.channelProcessed 1] := by
    simp [rescaleLoop]
  refine ⟨htr, fun hAll => ?_⟩
  have h01 := hAll 0 1 (by rw [htr]; rfl) (by rw [htr]; rfl)
  omega

/-- C6 (amended): for every volume, the per-channel loop's output is
identical with and without a progress sink, and with a sink the trace
consists, for each channel `i`, of the 1-based emission `i+1`
immediately followed by that channel's completion (the emission precedes
the channel's processing). -/
theorem progress_trace_and_output_independence (u : Bool) (q : ℚ)
    (chs : List (List ℚ)) (k : ℕ) :
    (rescaleLoop u q true chs k).1 = (rescaleLoop u q false chs k).1 ∧
    (∀ i, i < chs.length →
      (rescaleLoop u q true chs k).2.get? (2 * i)
        = some (RescaleEvent.emitProgress (k + i + 1)) ∧
      (rescaleLoop u q true chs k).2.get? (2 * i + 1)
        = some (RescaleEvent.channelProcessed (k + i + 1))) := by
  induction chs generalizing k with
  | nil => exact ⟨rfl, fun i hi => absurd hi (by simp)⟩
  | cons ch rest ih =>
    constructor
    · simp only [rescaleLoop]
      rw [(ih (k + 1)).1]
    · intro i hi
      match i with
      | 0 => simp [rescaleLoop]
      | Nat.succ j =>
        have hj : j < rest.length := by simpa using hi
        have h2 := (ih (k + 1)).2 j hj
        have harith : k + 1 + j + 1 = k + (j + 1) + 1 := by omega
        constructor
        · have : 2 * (j + 1) = (2 * j) + 1 + 1 := by omega
          rw [this]
          simp only [rescaleLoop, if_pos, List.cons_append, List.nil_append,
            List.get?_cons_succ]
          rw [← harith]
          exact h2.1
        · have : 2 * (j + 1) + 1 = (2 * j + 1) + 1 + 1 := by omega
          rw [this]
          simp only [rescaleLoop, if_pos, List.cons_append, List.nil_append,
            List.get?_cons_succ]
          rw [← harith]
          exact h2.2

/-- C6 (witness): on the one-channel volume `[[1]]` the instrumented
loop's trace has the emission `1` at position 0 and the channel
completion at position 1, and the output is the same without a sink. -/
theorem progress_trace_and_output_independence_witness :
    (0 : ℕ) < 1 ∧
    (rescaleLoop true (199 / 2) true [[1]] 0).1
      = (rescaleLoop true (199 / 2) false [[1]] 0).1 ∧
    (rescaleLoop true (199 / 2) true [[1]] 0).2.get? 0
      = some (RescaleEvent.emitProgress 1) :=
  ⟨by norm_num,
   (progress_trace_and_output_independence true (199 / 2) [[1]] 0).1,
   ((progress_trace_and_output_independence true (199 / 2) [[1]] 0).2
      0 (by norm_num)).1⟩

/-! ## C8: replacing the exclusion set from text -/

/-- C8 (counterexample): the claim "if parsing fails, a validation error
is reported and the prior exclusion set is left unchanged ... in no case
does replace terminate the process" fails for the text "3":
`eval("3")` succeeds but `set(3)` raises `TypeError`, which neither
`except SyntaxError` nor `except NameError` catches, so no validation
error is reported and the exception escapes uncaught (and an input such
as "exit()" raises `SystemExit` the same uncaught way, terminating the
process). -/
theorem validate_uncaught_exception_counterexample :
    validate_text_excluded 9 {5} EvalOutcome.otherExc = ⟨{5}, false, true⟩ ∧
    (validate_text_excluded 9 {5} EvalOutcome.otherExc).errorReported = false ∧
    (validate_text_excluded 9 {5} EvalOutcome.otherExc).uncaughtExc = true := by
  refine ⟨rfl, rfl, rfl⟩

/-- C8 (amended): evaluation failures raising `SyntaxError` (e.g.
"not a list") or `NameError` report a validation error and leave the
prior set unchanged; a successfully evaluated all-integer set keeps
exactly the values inside `[0, lastdir]` (out-of-range values such as
999 with D = 10 are silently dropped — the concrete instance
`[1, 2, 999]` yields `{1, 2}`); but any other exception escaping
`set(eval(txt))` is uncaught: no validation error is reported (the prior
set is unchanged only because the assignment is never reached), and such
an evaluation can terminate the process. -/
theorem validate_text_excluded_behavior (lastdir : ℤ) (prior : Finset ℤ)
    (vals : List ℤ) :
    validate_text_excluded lastdir prior EvalOutcome.malformed
      = ⟨prior, true, false⟩ ∧
    validate_text_excluded lastdir prior EvalOutcome.unknownName
      = ⟨prior, true, false⟩ ∧
    validate_text_excluded lastdir prior (EvalOutcome.ok (vals.map PyVal.intVal))
      = ⟨vals.toFinset.filter (fun i => 0 ≤ i ∧ i ≤ lastdir), false, false⟩ ∧
    validate_text_excluded lastdir prior EvalOutcome.otherExc
      = ⟨prior, false, true⟩ ∧
    validate_text_excluded 9 prior
        (EvalOutcome.ok [PyVal.intVal 1, PyVal.intVal 2, PyVal.intVal 999])
      = ⟨{1, 2}, false, false⟩ := by
  have hok : ∀ (ld : ℤ) (vs : List ℤ),
      validate_text_excluded ld prior (EvalOutcome.ok (vs.map PyVal.intVal))
        = ⟨vs.toFinset.filter (fun i => 0 ≤ i ∧ i ≤ ld), false, false⟩ := by
    intro ld vs
    have hfm : List.filterMap (fun v => match v with
        | PyVal.intVal n => some n | PyVal.nonIntVal => none)
        (List.map PyVal.intVal vs) = vs := by
      induction vs with
      | nil => rfl
      | cons a t iht => simp only [List.map_cons, List.filterMap_cons, iht]
    have hany : (List.map PyVal.intVal vs).any (fun v => match v with
        | PyVal.nonIntVal => true | PyVal.intVal _ => false) = false := by
      simp [List.any_map, Function.comp]
    simp only [validate_text_excluded, hany, Bool.false_eq_true, if_false, hfm]
    refine congrArg (fun s => ValidateResult.mk s false false) ?_
    ext i
    simp only [Finset.mem_sdiff, Finset.mem_filter]
    constructor
    · rintro ⟨h1, h2⟩
      refine ⟨h1, ?_, ?_⟩ <;>
        · by_contra hc
          exact h2 ⟨h1, by omega⟩
    · rintro ⟨h1, h2, h3⟩
      exact ⟨h1, fun hc => by omega⟩
  refine ⟨rfl, rfl, hok lastdir vals, rfl, ?_⟩
  have h9 := hok 9 [1, 2, 999]
  rw [show EvalOutcome.ok [PyVal.intVal 1, PyVal.intVal 2, PyVal.intVal 999]
      = EvalOutcome.ok (List.map PyVal.intVal [1, 2, 999]) from rfl, h9]
  decide

/-! ## C9: reporting a failed save -/

/-- C9 (evaluated at the failing input): with a dataset loaded,
direction 0 excluded, and `saveData()` raising an I/O failure, the
except-branch's dialog call evaluates
`self.parameter_box.dataset.dti_nifti_name`, an attribute `DtiQAGui`
does not have, so the result is an uncaught `AttributeError` and the
"SAVE ERROR" dialog naming the target directory is never shown. -/
theorem save_error_dialog_unreachable :
    (save_data ⟨some {0}, none⟩ SaveOutcome.ioFailure).2
      = SaveResult.uncaughtAttrError ∧
    ∀ d, (save_data ⟨some {0}, none⟩ SaveOutcome.ioFailure).2
      ≠ SaveResult.errorShown d := by
  have h : (save_data ⟨some {0}, none⟩ SaveOutcome.ioFailure).2
      = SaveResult.uncaughtAttrError := by decide
  refine ⟨h, fun d hc => ?_⟩
  rw [h] at hc
  exact SaveResult.noConfusion hc

/-! ## C10: save is a no-op without a loaded dataset and exclusions -/

/-- C10: `save_data` never mutates the session state, and it does
nothing at all (no save attempt, no dialog) exactly when no dataset is
loaded or the exclusion set is empty; in every other case a save attempt
is made. -/
theorem save_data_noop_guard (s : Session) (o : SaveOutcome) :
    (save_data s o).1 = s ∧
    ((save_data s o).2 = SaveResult.noSave
      ↔ s.dti_obj = none ∨ s.dti_obj = some ∅) := by
  obtain ⟨d, img⟩ := s
  cases d with
  | none => exact ⟨rfl, by simp [save_data]⟩
  | some exc =>
    by_cases h : exc = ∅
    · subst h
      exact ⟨rfl, by simp [save_data]⟩
    · cases o <;> simp [save_data, h]

end DTIQC
